import Mathlib

/-!
Verification of the GESTOR_WS_COLEGIOS services against their
natural-language specification.  Each subsystem touched by a claim is
shallowly embedded: Python functions become Lean functions over explicit
state, database sessions become record values, HTTP / LLM / clock effects
become oracle parameters, and exceptions become `Except` / sum results.
-/

set_option maxRecDepth 4000

-- ============================================================
-- ERP service: payments (src/erp_mock/app/crud.py, main.py)
-- ============================================================

/-- Installment row (`Cuota` model).  `estado` ranges over
`"pendiente" | "pagada" | "vencida"` (EstadoCuota); timestamps are
modelled as naturals. -/
structure Cuota where
  id : String
  alumno_id : String
  estado : String
  fecha_pago : Option Nat
  monto : Int
  deriving Repr, DecidableEq

/-- Payment row (`Pago` model). -/
structure Pago where
  id : String
  cuota_id : String
  monto : Int
  fecha_pago : Nat
  metodo_pago : String
  referencia : String
  deriving Repr, DecidableEq

/-- Body of `POST /api/v1/pagos/confirmar` (`ConfirmarPagoRequest`). -/
structure ConfirmarPagoRequest where
  cuota_id : String
  monto : Int
  metodo_pago : String
  referencia : String
  deriving Repr, DecidableEq

/-- The ERP database session state: installment rows and payment rows. -/
structure ErpDB where
  cuotas : List Cuota
  pagos : List Pago
  deriving Repr, DecidableEq

/-- `crud.get_cuota_by_id`: first installment row with the given id. -/
def get_cuota_by_id (db : ErpDB) (cuota_id : String) : Option Cuota :=
  db.cuotas.find? (fun c => c.id = cuota_id)

/-- Uppercase-hex check for one character of a generated payment id. -/
def isUpperHexChar (ch : Char) : Bool :=
  ch.isDigit || (decide ('A' ≤ ch) && decide (ch ≤ 'F'))

/-- `s` matches the regex `PAY-[A-F0-9]{8}` exactly. -/
def matchesPAY (s : String) : Bool :=
  match s.data with
  | 'P' :: 'A' :: 'Y' :: '-' :: rest => rest.length = 8 && rest.all isUpperHexChar
  | _ => false

/-- `s` matches the regex `PAG-[A-F0-9]{8}` exactly. -/
def matchesPAG (s : String) : Bool :=
  match s.data with
  | 'P' :: 'A' :: 'G' :: '-' :: rest => rest.length = 8 && rest.all isUpperHexChar
  | _ => false

/-- `crud.crear_pago`.  `uuidHex` models `uuid.uuid4().hex` (a string of
32 lowercase hexadecimal characters, given here as a char list) and
`now` models `datetime.utcnow()`.  Returns the created payment, the
(possibly updated) installment, and the resulting database state, in
direct correspondence with the source's `(pago, cuota)` return plus the
session mutation. -/
def crear_pago (db : ErpDB) (pago_data : ConfirmarPagoRequest)
    (uuidHex : List Char) (now : Nat) :
    Option Pago × Option Cuota × ErpDB :=
  match get_cuota_by_id db pago_data.cuota_id with
  | none => (none, none, db)
  | some cuota =>
    if cuota.estado = "pagada" then
      (none, some cuota, db)
    else
      let pago_id : String := "PAG-" ++ String.mk ((uuidHex.take 8).map Char.toUpper)
      let nuevo_pago : Pago :=
        { id := pago_id
          cuota_id := pago_data.cuota_id
          monto := pago_data.monto
          fecha_pago := now
          metodo_pago := pago_data.metodo_pago
          referencia := pago_data.referencia }
      let cuota' : Cuota := { cuota with estado := "pagada", fecha_pago := some now }
      let db' : ErpDB :=
        { cuotas := db.cuotas.map (fun c => if c.id = cuota.id then cuota' else c)
          pagos := db.pagos ++ [nuevo_pago] }
      (some nuevo_pago, some cuota', db')

/-- Result of the `confirmar_pago` endpoint: HTTP status, response
payload fields, resulting database state, and whether the outbound
webhook background task was enqueued. -/
structure ConfirmarPagoResult where
  status : Nat
  detail : Option String
  pago : Option Pago
  cuota : Option Cuota
  db : ErpDB
  webhookEnqueued : Bool
  deriving Repr, DecidableEq

/-- `main.confirmar_pago` (`POST /api/v1/pagos/confirmar`): calls
`crear_pago`, maps `(None, None)` to 404, `(None, cuota)` to 400
AlreadyPaid, and on success enqueues `notify_pago_confirmado` as a
background task and returns 200. -/
def confirmar_pago (db : ErpDB) (pago_data : ConfirmarPagoRequest)
    (uuidHex : List Char) (now : Nat) : ConfirmarPagoResult :=
  match crear_pago db pago_data uuidHex now with
  | (_, none, db') =>
    { status := 404
      detail := some ("Cuota con ID " ++ pago_data.cuota_id ++ " no encontrada")
      pago := none, cuota := none, db := db', webhookEnqueued := false }
  | (none, some cuota, db') =>
    { status := 400
      detail := some ("La cuota " ++ pago_data.cuota_id ++ " ya está pagada")
      pago := none, cuota := some cuota, db := db', webhookEnqueued := false }
  | (some pago, some cuota, db') =>
    { status := 200
      detail := none
      pago := some pago, cuota := some cuota, db := db', webhookEnqueued := true }

/-- The sixteen characters `uuid4().hex` can produce. -/
def lowerHexChars : List Char := "0123456789abcdef".toList

/-- Concrete pending installment used as a test fixture. -/
def cuotaPendiente : Cuota :=
  { id := "C-A001-03", alumno_id := "A001", estado := "pendiente"
    fecha_pago := none, monto := 50000 }

/-- Concrete already-paid installment used as a test fixture. -/
def cuotaPagada : Cuota :=
  { id := "C-A001-01", alumno_id := "A001", estado := "pagada"
    fecha_pago := some 100, monto := 50000 }

/-- Fixture database holding one pending and one paid installment. -/
def erpDB0 : ErpDB := { cuotas := [cuotaPendiente, cuotaPagada], pagos := [] }

/-- Fixture confirmation request for the pending installment. -/
def reqPendiente : ConfirmarPagoRequest :=
  { cuota_id := "C-A001-03", monto := 50000
    metodo_pago := "transferencia", referencia := "REF-1" }

/-- Fixture confirmation request for the already-paid installment. -/
def reqPagada : ConfirmarPagoRequest :=
  { cuota_id := "C-A001-01", monto := 50000
    metodo_pago := "transferencia", referencia := "REF-2" }

/-- A concrete value for `uuid.uuid4().hex`. -/
def uuidHex0 : List Char := "0123456789abcdef0123456789abcdef".toList

-- ============================================================
-- ERP service: reliable outbound webhook
-- (src/erp_mock/app/webhooks.py, WebhookClient._send_with_retry)
-- ============================================================

/-- Outcome of one HTTP attempt inside `_send_with_retry`: either a
response with a status code, or a raised exception
(timeout / connection error / other), which the source catches. -/
inductive AttemptOutcome where
  | response (status : Nat)
  | raised
  deriving Repr, DecidableEq

/-- An attempt outcome counts as success iff the status is 200/201/202. -/
def attemptSuccess : AttemptOutcome → Bool
  | .response s => s = 200 || s = 201 || s = 202
  | .raised => false

/-- Observable result of `_send_with_retry`: the returned boolean, the
number of HTTP attempts performed, and the list of back-off delays slept
(in order). -/
structure RetryResult where
  ok : Bool
  attempts : Nat
  delays : List ℚ
  deriving Repr, DecidableEq

/-- Loop body of `_send_with_retry` (`for attempt in range(max_retries)`),
unrolled by remaining-iteration fuel.  `outcome i` is what the HTTP call
of attempt `i` does.  After a failed attempt `i` with
`i < max_retries - 1`, the client sleeps `base_delay * 2 ^ i`. -/
def send_with_retry_go (outcome : Nat → AttemptOutcome) (max_retries : Nat)
    (base_delay : ℚ) : Nat → Nat → RetryResult
  | _, 0 => { ok := false, attempts := 0, delays := [] }
  | attempt, fuel + 1 =>
    if attemptSuccess (outcome attempt) then
      { ok := true, attempts := 1, delays := [] }
    else
      let rest := send_with_retry_go outcome max_retries base_delay (attempt + 1) fuel
      let slept : List ℚ :=
        if attempt < max_retries - 1 then [base_delay * 2 ^ attempt] else []
      { ok := rest.ok, attempts := rest.attempts + 1, delays := slept ++ rest.delays }

/-- `WebhookClient._send_with_retry`, with the HTTP layer as an oracle. -/
def send_with_retry (outcome : Nat → AttemptOutcome) (max_retries : Nat)
    (base_delay : ℚ) : RetryResult :=
  send_with_retry_go outcome max_retries base_delay 0 max_retries

-- ============================================================
-- Tool server registry (src/mcp_tools/app/mcp/registry.py)
-- ============================================================

/-- JSON-ish values passed to and returned by tool handlers. -/
inductive JsonValue where
  | null
  | bool (b : Bool)
  | num (n : Int)
  | str (s : String)
  | arr (l : List JsonValue)
  | obj (l : List (String × JsonValue))

/-- Python truthiness of a JSON value (used by
`if use_mock and tool_def.mock_response:`). -/
def jsonTruthy : JsonValue → Bool
  | .null => false
  | .bool b => b
  | .num n => n != 0
  | .str s => s != ""
  | .arr l => !l.isEmpty
  | .obj l => !l.isEmpty

/-- A registered tool (`ToolDefinition`).  The handler takes the call
arguments and either returns a value or raises (modelled by `Except`). -/
structure ToolDefinition where
  name : String
  description : String
  handler : List (String × JsonValue) → Except String JsonValue
  category : String
  mock_response : Option JsonValue

/-- Result dict of `ToolRegistry.call_tool`. -/
structure ToolCallResult where
  success : Bool
  error : Option String
  data : Option JsonValue

/-- `ToolRegistry.call_tool`.  The registry's `_tools` dict is an
association list from tool name to definition.  The function is total:
handler exceptions are caught and turned into an error result, so the
call itself never raises. -/
def call_tool (tools : List (String × ToolDefinition)) (name : String)
    (arguments : List (String × JsonValue)) (use_mock : Bool) : ToolCallResult :=
  match (tools.find? (fun p => p.1 = name)).map Prod.snd with
  | none =>
    { success := false
      error := some ("Tool \x27" ++ name ++ "\x27 no encontrada")
      data := none }
  | some tool_def =>
    if use_mock && (tool_def.mock_response.map jsonTruthy).getD false then
      { success := true, error := none, data := tool_def.mock_response }
    else
      match tool_def.handler arguments with
      | .ok result => { success := true, error := none, data := some result }
      | .error e => { success := false, error := some e, data := none }

-- ============================================================
-- Orchestrator: WhatsApp verification handshake
-- (src/gestor_ws/app/api/webhooks_whatsapp.py, webhook_verification)
-- ============================================================

/-- Possible responses of `GET /webhook/whatsapp`: the parsed integer
challenge (HTTP 200), the 403 `HTTPException`, or the unhandled
`ValueError` raised by `int(hub_challenge)` on a non-numeric challenge. -/
inductive VerificationResponse where
  | challenge (n : Int)
  | forbidden
  | valueError
  deriving Repr, DecidableEq

/-- Decimal digit-string to natural number (`none` on empty input or a
non-digit character). -/
def digitsToNat (ds : List Char) : Option Nat :=
  if ds.isEmpty then none
  else
    ds.foldl
      (fun acc ch =>
        acc.bind (fun n =>
          if ch.isDigit then some (10 * n + (ch.toNat - '0'.toNat)) else none))
      (some 0)

/-- Python's `int(str)` on a trimmed string: optional sign followed by
decimal digits; `none` models the raised `ValueError`. -/
def intOfString (s : String) : Option Int :=
  match s.data with
  | '-' :: ds => (digitsToNat ds).map (fun n => -(n : Int))
  | '+' :: ds => (digitsToNat ds).map (fun n => (n : Int))
  | ds => (digitsToNat ds).map (fun n => (n : Int))

/-- `webhook_verification`: returns `int(hub_challenge)` when
`hub.mode == "subscribe"` and the submitted token equals the configured
`WHATSAPP_VERIFY_TOKEN`; otherwise raises HTTP 403. -/
def webhook_verification (hub_mode hub_verify_token hub_challenge : String)
    (verify_token_config : String) : VerificationResponse :=
  if hub_mode = "subscribe" && hub_verify_token = verify_token_config then
    match intOfString hub_challenge with
    | some n => .challenge n
    | none => .valueError
  else
    .forbidden

-- ============================================================
-- Orchestrator: notification service
-- (src/gestor_ws/app/services/notification_service.py)
-- ============================================================

/-- A `NotificacionEnviada` row. -/
structure NotificacionEnviada where
  erp_cuota_id : String
  whatsapp_to : String
  tipo : String
  deriving Repr, DecidableEq

/-- Orchestrator-side persistent state relevant to notifications. -/
structure NotifState where
  notificaciones : List NotificacionEnviada
  deriving Repr, DecidableEq

/-- Data the ERP adapter returns for an installment (fields the
notification service reads). -/
structure CuotaInfo where
  alumno_id : String
  monto : Int
  fecha_vencimiento : String
  link_pago : String
  deriving Repr, DecidableEq

/-- One responsible party embedded in an `alumno` view. -/
structure ResponsableInfo where
  nombre : String
  whatsapp : Option String
  deriving Repr, DecidableEq

/-- Data the ERP adapter returns for a student. -/
structure AlumnoInfo where
  nombre : String
  apellido : String
  responsables : List ResponsableInfo
  deriving Repr, DecidableEq

/-- External collaborators of the notification service: the ERP adapter
lookups and the WhatsApp transport (`send_message` success flag keyed by
destination).  Message text construction is presentation-only and does
not influence persistence, so it is not tracked here. -/
structure NotifEnv where
  get_cuota : String → Option CuotaInfo
  get_alumno : String → Option AlumnoInfo
  send_ok : String → Bool

/-- `NotificationService._ya_enviada`: is there already a
`NotificacionEnviada` row with this installment id and kind? -/
def ya_enviada (st : NotifState) (cuota_id tipo : String) : Bool :=
  st.notificaciones.any (fun n => n.erp_cuota_id = cuota_id && n.tipo = tipo)

/-- `NotificationService._registrar_envio`: insert a row. -/
def registrar_envio (st : NotifState) (cuota_id whatsapp tipo : String) : NotifState :=
  { notificaciones := st.notificaciones ++
      [{ erp_cuota_id := cuota_id, whatsapp_to := whatsapp, tipo := tipo }] }

/-- First responsible party that has a WhatsApp handle. -/
def buscarWhatsapp (responsables : List ResponsableInfo) : Option String :=
  (responsables.find? (fun r => r.whatsapp.isSome)).bind (fun r => r.whatsapp)

/-- `NotificationService.enviar_recordatorio_vencimiento`: look up the
installment and student, find a WhatsApp handle, skip if a
`(cuota, recordatorio_d<dias>)` row already exists, send, and register
the row only when the send succeeded.  Returns the success flag and the
updated state. -/
def enviar_recordatorio_vencimiento (env : NotifEnv) (st : NotifState)
    (cuota_id : String) (dias_antes : Nat) : Bool × NotifState :=
  match env.get_cuota cuota_id with
  | none => (false, st)
  | some cuota =>
    match env.get_alumno cuota.alumno_id with
    | none => (false, st)
    | some alumno =>
      match buscarWhatsapp alumno.responsables with
      | none => (false, st)
      | some whatsapp =>
        if ya_enviada st cuota_id ("recordatorio_d" ++ toString dias_antes) then
          (false, st)
        else if env.send_ok whatsapp then
          (true, registrar_envio st cuota_id whatsapp
                   ("recordatorio_d" ++ toString dias_antes))
        else
          (false, st)

/-- `NotificationService.enviar_confirmacion_pago`: look up the student
(and the installment, only for the message amount), find a WhatsApp
handle, send, and register a `(cuota, confirmacion_pago)` row when the
send succeeded.  Note: unlike the reminder path, there is no
`_ya_enviada` check. -/
def enviar_confirmacion_pago (env : NotifEnv) (st : NotifState)
    (cuota_id alumno_id : String) : Bool × NotifState :=
  match env.get_alumno alumno_id with
  | none => (false, st)
  | some alumno =>
    match buscarWhatsapp alumno.responsables with
    | none => (false, st)
    | some whatsapp =>
      if env.send_ok whatsapp then
        (true, registrar_envio st cuota_id whatsapp "confirmacion_pago")
      else
        (false, st)

/-- Number of `NotificacionEnviada` rows with key `(cuota_id, tipo)`. -/
def countNotif (st : NotifState) (cuota_id tipo : String) : Nat :=
  (st.notificaciones.filter (fun n => n.erp_cuota_id = cuota_id && n.tipo = tipo)).length

/-- Fixture environment: the student has one responsible party with a
WhatsApp handle and every send succeeds. -/
def notifEnv0 : NotifEnv :=
  { get_cuota := fun _ => some
      { alumno_id := "A001", monto := 50000
        fecha_vencimiento := "2025-03-10", link_pago := "" }
    get_alumno := fun _ => some
      { nombre := "Ana", apellido := "Perez"
        responsables := [{ nombre := "Maria", whatsapp := some "+5491112345001" }] }
    send_ok := fun _ => true }

/-- State after delivering the same payment-confirmation event twice. -/
def notifTwice : NotifState :=
  (enviar_confirmacion_pago notifEnv0
    (enviar_confirmacion_pago notifEnv0 { notificaciones := [] } "C-A001-03" "A001").2
    "C-A001-03" "A001").2

-- ============================================================
-- Orchestrator: token tracking
-- (src/gestor_ws/app/services/token_tracker.py)
-- ============================================================

/-- The metadata dict attached to an inference, reduced to the keys
`record_inference` actually reads (`provider`, `model`). -/
structure InferenceMetadata where
  provider : Option String
  modelName : Option String
  deriving Repr, DecidableEq

/-- An `InferenceRecord`. -/
structure InferenceRecord where
  node_name : String
  inference_type : String
  prompt_tokens : Nat
  completion_tokens : Nat
  total_tokens : Nat
  timestamp : Nat
  metadata : Option InferenceMetadata
  deriving Repr, DecidableEq

/-- A `TokenSession`. -/
structure TokenSession where
  query_id : String
  whatsapp : String
  mensaje : String
  start_time : Nat
  inferences : List InferenceRecord
  total_prompt_tokens : Nat
  total_completion_tokens : Nat
  total_tokens : Nat
  provider : Option String
  modelName : Option String
  end_time : Option Nat
  deriving Repr, DecidableEq

/-- State of the `TokenTracker` singleton together with the task-local
context variable `_current_session`. -/
structure TrackerState where
  enabled : Bool
  session : Option TokenSession
  deriving Repr, DecidableEq

/-- `TokenTracker.start_session`: binds a fresh session (when enabled). -/
def start_session (st : TrackerState) (query_id whatsapp mensaje : String)
    (now : Nat) : TrackerState :=
  if st.enabled then
    { st with session := some (
        { query_id := query_id, whatsapp := whatsapp, mensaje := mensaje
          start_time := now, inferences := []
          total_prompt_tokens := 0, total_completion_tokens := 0, total_tokens := 0
          provider := none, modelName := none, end_time := none : TokenSession }) }
  else
    st

/-- The provider/model back-fill `record_inference` applies to the
session from the inference metadata (only when not already set). -/
def sessionWithMeta (session : TokenSession)
    (metadata : Option InferenceMetadata) : TokenSession :=
  match metadata with
  | some md =>
    let session :=
      if session.provider.isNone && md.provider.isSome then
        { session with provider := md.provider }
      else session
    if session.modelName.isNone && md.modelName.isSome then
      { session with modelName := md.modelName }
    else session
  | none => session

/-- `TokenTracker.record_inference`: appends an `InferenceRecord` to the
bound session and accumulates the totals; returns the state unchanged
when tracking is disabled or no session is bound (the source only logs
a warning in that case, it neither raises nor mutates). -/
def record_inference (st : TrackerState) (node_name inference_type : String)
    (prompt_tokens completion_tokens total_tokens : Nat)
    (metadata : Option InferenceMetadata) (now : Nat) : TrackerState :=
  if !st.enabled then st
  else
    match st.session with
    | none => st
    | some session =>
      let session := sessionWithMeta session metadata
      let inference : InferenceRecord :=
        { node_name := node_name, inference_type := inference_type
          prompt_tokens := prompt_tokens, completion_tokens := completion_tokens
          total_tokens := total_tokens, timestamp := now, metadata := metadata }
      { st with session := some (
          { session with
              inferences := session.inferences ++ [inference]
              total_prompt_tokens := session.total_prompt_tokens + prompt_tokens
              total_completion_tokens := session.total_completion_tokens + completion_tokens
              total_tokens := session.total_tokens + total_tokens }) }

/-- `TokenTracker.finalize_session`: stamps the end time, clears the
binding and returns the finalized session; returns `none` and leaves the
state untouched when tracking is disabled or no session is bound. -/
def finalize_session (st : TrackerState) (now : Nat) :
    Option TokenSession × TrackerState :=
  if !st.enabled then (none, st)
  else
    match st.session with
    | none => (none, st)
    | some session =>
      let session := { session with end_time := some now }
      (some session, { st with session := none })

-- ============================================================
-- Orchestrator: TrackedLLM wrapper
-- (src/gestor_ws/app/llm/tracked_llm.py)
-- ============================================================

/-- OpenAI-style `token_usage` metadata (`none` also covers a falsy
empty dict, which the source skips). -/
structure OpenAIUsage where
  prompt_tokens : Nat
  completion_tokens : Nat
  total_tokens : Nat
  deriving Repr, DecidableEq

/-- Google-style `usage_metadata`. -/
structure GoogleUsage where
  prompt_token_count : Nat
  candidates_token_count : Nat
  total_token_count : Nat
  deriving Repr, DecidableEq

/-- `response_metadata` of an LLM response. -/
structure ResponseMetadata where
  token_usage : Option OpenAIUsage
  usage_metadata : Option GoogleUsage
  deriving Repr, DecidableEq

/-- An LLM response as seen by `TrackedLLM._extract_token_usage`:
`response_metadata` when the attribute exists, and the text `content`
(absent attribute modelled as `none`; a `None` content is already folded
into the empty string by the source's `response.content or ""`). -/
structure LLMResponse where
  response_metadata : Option ResponseMetadata
  content : Option String
  deriving Repr, DecidableEq

/-- `TrackedLLM._extract_token_usage`.  `encode` models
`len(tiktoken_encoding.encode(text))`; `tiktoken_ok` is false when the
tiktoken import or the encoding computation fails (both caught by the
source).  Returns `(prompt_tokens, completion_tokens, total_tokens)`. -/
def extract_token_usage (encode : String → Nat) (tiktoken_ok : Bool)
    (response : LLMResponse) : Nat × Nat × Nat :=
  let fromMeta : Nat × Nat × Nat :=
    match response.response_metadata with
    | none => (0, 0, 0)
    | some metadata =>
      let s0 : Nat × Nat × Nat :=
        match metadata.token_usage with
        | some tu => (tu.prompt_tokens, tu.completion_tokens, tu.total_tokens)
        | none => (0, 0, 0)
      match metadata.usage_metadata with
      | some um =>
        if s0.2.2 = 0 then
          (um.prompt_token_count, um.candidates_token_count, um.total_token_count)
        else s0
      | none => s0
  if fromMeta.2.2 = 0 then
    if tiktoken_ok then
      match response.content with
      | some text => (0, encode text, encode text)
      | none => fromMeta
    else fromMeta
  else fromMeta

/-- `TrackedLLM.ainvoke`, after the underlying model produced
`response`: extract the token counts and call
`token_tracker.record_inference` — but only when the extracted total is
positive.  Returns the tracker state after the call. -/
def tracked_ainvoke (encode : String → Nat) (tiktoken_ok : Bool)
    (st : TrackerState) (node_name inference_type : String)
    (provider modelName : String) (response : LLMResponse) (now : Nat) :
    TrackerState :=
  let extracted := extract_token_usage encode tiktoken_ok response
  if extracted.2.2 > 0 then
    record_inference st node_name inference_type
      extracted.1 extracted.2.1 extracted.2.2
      (some { provider := some provider, modelName := some modelName }) now
  else
    st

/-- A metadata-less LLM response with empty text, as produced by a
provider that returns no usage metadata and an empty completion. -/
def emptyResponse : LLMResponse := { response_metadata := none, content := some "" }

/-- Tracker state with a freshly started (empty) session bound. -/
def trackerWithSession : TrackerState :=
  start_session { enabled := true, session := none } "q1" "+5491112345001" "hola" 0

-- ============================================================
-- Agent runtime: hierarchical planner
-- (src/gestor_ws/app/agents/agente_autonomo.py)
-- ============================================================

/-- `MAX_REPLANS` constant. -/
def MAX_REPLANS : Nat := 3

/-- One step of a `MasterPlan`. -/
structure StepPlan where
  specialist : String
  goal : String
  deriving Repr, DecidableEq

/-- The manager's `MasterPlan` (fields the graph logic reads). -/
structure MasterPlan where
  intent : String
  steps : List StepPlan
  deriving Repr, DecidableEq

/-- A `SpecialistReport` (fields the graph logic reads). -/
structure SpecialistReport where
  specialist : String
  success : Bool
  summary : String
  requires_replan : Bool
  deriving Repr, DecidableEq

/-- Nodes of the hierarchical agent graph, plus the terminal `END`. -/
inductive AgentNode where
  | cargar_contexto
  | manager
  | ejecutar_especialista
  | evaluar
  | sintetizar
  | fin
  deriving Repr, DecidableEq

/-- Nondeterministic collaborators of one run: the manager LLM's n-th
answer (`Except` models a raised/JSON-parse exception) and the n-th
specialist subgraph run's report (a missing specialist also yields a
report in the source, so it is folded into this oracle). -/
structure AgentEnv where
  managerOracle : Nat → Except String MasterPlan
  specialistOracle : Nat → SpecialistReport

/-- The per-request `AgentState`, with ghost invocation counters
(`managerCalls`, `specialistCalls`) added for the resource claims. -/
structure AgentState where
  node : AgentNode
  error : Option String
  master_plan : Option MasterPlan
  current_step_index : Nat
  specialist_reports : List SpecialistReport
  replan_count : Nat
  max_replans : Nat
  needs_replan : Bool
  managerCalls : Nat
  specialistCalls : Nat
  deriving Repr, DecidableEq

/-- `_nodo_manager`: asks the LLM for a `MasterPlan`; on success stores
it (resetting the step cursor and reports only on the first, non-replan
call), on exception sets the error slot and clears the plan. -/
def nodo_manager (env : AgentEnv) (s : AgentState) : AgentState :=
  let o := env.managerOracle s.managerCalls
  let s := { s with managerCalls := s.managerCalls + 1 }
  match o with
  | .ok plan =>
    let s := { s with master_plan := some plan }
    if s.replan_count = 0 then
      { s with current_step_index := 0, specialist_reports := [] }
    else s
  | .error e =>
    { s with error := some ("Error en Manager: " ++ e), master_plan := none }

/-- `_router_post_manager`. -/
def router_post_manager (s : AgentState) : String :=
  if s.error.isSome then "error"
  else
    match s.master_plan with
    | none => "error"
    | some plan =>
      if plan.intent = "saludo" || plan.steps.isEmpty then "sintetizar"
      else "ejecutar"

/-- `_nodo_ejecutar_especialista`: dispatches the step at the cursor to
the named specialist, appends its report and advances the cursor; with
no plan/steps it records an error, and past-the-end it is a no-op. -/
def nodo_ejecutar_especialista (env : AgentEnv) (s : AgentState) : AgentState :=
  match s.master_plan with
  | none => { s with error := some "No hay pasos en el plan" }
  | some plan =>
    if plan.steps.isEmpty then
      { s with error := some "No hay pasos en el plan" }
    else if s.current_step_index ≥ plan.steps.length then s
    else
      let report := env.specialistOracle s.specialistCalls
      { s with
          specialist_reports := s.specialist_reports ++ [report]
          current_step_index := s.current_step_index + 1
          specialistCalls := s.specialistCalls + 1 }

/-- `_nodo_evaluar`: if the last report requires a replan and the replan
counter is strictly below the cap, set `needs_replan` and increment the
counter; otherwise clear `needs_replan`. -/
def nodo_evaluar (s : AgentState) : AgentState :=
  match s.specialist_reports.getLast? with
  | none => s
  | some ultimo =>
    if ultimo.requires_replan then
      if s.replan_count < s.max_replans then
        { s with needs_replan := true, replan_count := s.replan_count + 1 }
      else
        { s with needs_replan := false }
    else
      { s with needs_replan := false }

/-- `_router_post_evaluar`. -/
def router_post_evaluar (s : AgentState) : String :=
  if s.needs_replan then "replan"
  else
    match s.master_plan with
    | some plan =>
      if !plan.steps.isEmpty && s.current_step_index < plan.steps.length then
        "continuar"
      else "sintetizar"
    | none => "sintetizar"

/-- One LangGraph transition of the hierarchical agent: execute the
current node, then follow its (conditional) edge.  `cargar_contexto`
only populates the user context (not modelled — no claim reads it) and
`sintetizar` only builds the final text, so both reduce to their edges
here. -/
def agentStep (env : AgentEnv) (s : AgentState) : AgentState :=
  match s.node with
  | .cargar_contexto => { s with node := .manager }
  | .manager =>
    let s := nodo_manager env s
    match router_post_manager s with
    | "ejecutar" => { s with node := .ejecutar_especialista }
    | _ => { s with node := .sintetizar }
  | .ejecutar_especialista =>
    { nodo_ejecutar_especialista env s with node := .evaluar }
  | .evaluar =>
    let s := nodo_evaluar s
    match router_post_evaluar s with
    | "replan" => { s with node := .manager }
    | "continuar" => { s with node := .ejecutar_especialista }
    | _ => { s with node := .sintetizar }
  | .sintetizar => { s with node := .fin }
  | .fin => s

/-- Iterate `agentStep` (`fin` is absorbing). -/
def agentRun (env : AgentEnv) : Nat → AgentState → AgentState
  | 0, s => s
  | fuel + 1, s => agentRun env fuel (agentStep env s)

/-- `create_empty_agent_state` at the graph entry point, with a given
replan cap. -/
def initialAgentState (m : Nat) : AgentState :=
  { node := .cargar_contexto, error := none, master_plan := none
    current_step_index := 0, specialist_reports := []
    replan_count := 0, max_replans := m, needs_replan := false
    managerCalls := 0, specialistCalls := 0 }

-- ============================================================
-- Agent runtime: code planner
-- (src/gestor_ws/app/agents/code_planner.py)
-- ============================================================

/-- `MAX_CORRECTIONS` constant. -/
def MAX_CORRECTIONS : Nat := 3

/-- `MAX_PLANNER_ITERATIONS` constant. -/
def MAX_PLANNER_ITERATIONS : Nat := 5

/-- Nodes of the code-planner graph, the terminal `END`, and a sink for
an unmapped conditional-edge label (LangGraph raises on those). -/
inductive CPNode where
  | planner
  | executor
  | self_correction
  | reflector
  | responder
  | done
  | crashed
  deriving Repr, DecidableEq

/-- What the planner LLM produced: code (possibly empty after markdown
cleaning) or a raised exception (which makes the source install an
error-fallback snippet). -/
inductive PlanOutcome where
  | code (empty : Bool)
  | llmError
  deriving Repr, DecidableEq

/-- What executing a generated program did: raised (timeout, exec or
runtime exception) or returned a result dict with the given `success`
flag. -/
inductive ExecOutcome where
  | raises
  | returns (success : Bool)
  deriving Repr, DecidableEq

/-- The code actually stored in `generated_code`: LLM output, the
iteration-limit fallback (a constant snippet returning
`success: True`), or the error fallback (a constant snippet returning
`success: False`). -/
inductive GeneratedCode where
  | llmCode (empty : Bool)
  | iterLimitFallback
  | errorFallback
  deriving Repr, DecidableEq

/-- Oracles: the n-th planner-LLM call, the n-th execution of LLM-written
code, and the n-th reflector-LLM verdict (`none` = JSON parse failure,
which the source treats as valid). -/
structure CPEnv where
  plannerOracle : Nat → PlanOutcome
  execOracle : Nat → ExecOutcome
  reflectorOracle : Nat → Option Bool

/-- The `CodePlannerState`, with ghost counters for node executions and
LLM calls. -/
structure CPState where
  node : CPNode
  planner_iterations : Nat
  correction_count : Nat
  max_corrections : Nat
  generated_code : Option GeneratedCode
  execution_error : Option String
  has_result : Bool
  execution_success : Bool
  reflection_valid : Bool
  plannerRuns : Nat
  executorRuns : Nat
  llmPlannerCalls : Nat
  deriving Repr, DecidableEq

/-- `_nodo_planner`: bumps `planner_iterations`; past
`MAX_PLANNER_ITERATIONS` it installs the iteration-limit fallback
without calling the LLM; otherwise it asks the LLM for code (an LLM
exception installs the error fallback). -/
def nodo_planner (env : CPEnv) (s : CPState) : CPState :=
  let s := { s with
      planner_iterations := s.planner_iterations + 1
      plannerRuns := s.plannerRuns + 1 }
  if s.planner_iterations > MAX_PLANNER_ITERATIONS then
    { s with generated_code := some .iterLimitFallback }
  else
    let o := env.plannerOracle s.llmPlannerCalls
    let s := { s with llmPlannerCalls := s.llmPlannerCalls + 1 }
    match o with
    | .code empty => { s with generated_code := some (.llmCode empty) }
    | .llmError => { s with generated_code := some .errorFallback }

/-- `_nodo_executor`: empty code is an immediate error (with correction
bump); the two fallback snippets run deterministically; LLM code does
whatever the oracle says.  Errors set `execution_error` and bump
`correction_count`; results clear the error and record the flag. -/
def nodo_executor (env : CPEnv) (s : CPState) : CPState :=
  let s := { s with executorRuns := s.executorRuns + 1 }
  match s.generated_code with
  | none =>
    { s with execution_error := some "Código vacío generado por el Planner"
             correction_count := s.correction_count + 1 }
  | some (.llmCode true) =>
    { s with execution_error := some "Código vacío generado por el Planner"
             correction_count := s.correction_count + 1 }
  | some .iterLimitFallback =>
    { s with execution_error := none, has_result := true, execution_success := true }
  | some .errorFallback =>
    { s with execution_error := none, has_result := true, execution_success := false }
  | some (.llmCode false) =>
    match env.execOracle (s.executorRuns - 1) with
    | .raises =>
      { s with execution_error := some "exception"
               correction_count := s.correction_count + 1 }
    | .returns b =>
      { s with execution_error := none, has_result := true, execution_success := b }

/-- `_router_post_executor`: on an execution error, return `"responder"`
once `correction_count` has reached `max_corrections`, else `"error"`;
on success return `"success"`. -/
def router_post_executor (s : CPState) : String :=
  if s.execution_error.isSome then
    if s.correction_count ≥ s.max_corrections then "responder"
    else "error"
  else "success"

/-- The conditional-edge mapping declared for the executor in
`_build_graph`: `{success: reflector, error: self_correction,
max_errors: responder}`.  Any other router label has no edge. -/
def pathMapExecutor (label : String) : Option CPNode :=
  if label = "success" then some .reflector
  else if label = "error" then some .self_correction
  else if label = "max_errors" then some .responder
  else none

/-- `_nodo_reflector`: a result with `success == False` (or a missing
result) is invalid without consulting the LLM; otherwise the LLM's
verdict decides, and a parse failure counts as valid. -/
def nodo_reflector (env : CPEnv) (s : CPState) : CPState :=
  if !(s.has_result && s.execution_success) then
    { s with reflection_valid := false }
  else
    match env.reflectorOracle s.plannerRuns with
    | some b => { s with reflection_valid := b }
    | none => { s with reflection_valid := true }

/-- `_router_post_reflector`: valid → respond; otherwise respond anyway
once `planner_iterations` reached `MAX_PLANNER_ITERATIONS` or
`correction_count ≥ 2`, else loop back to the planner. -/
def router_post_reflector (s : CPState) : String :=
  if s.reflection_valid then "valid"
  else if s.planner_iterations ≥ MAX_PLANNER_ITERATIONS then "valid"
  else if s.correction_count ≥ 2 then "valid"
  else "invalid"

/-- The conditional-edge mapping declared for the reflector:
`{valid: responder, invalid: planner}`. -/
def pathMapReflector (label : String) : Option CPNode :=
  if label = "valid" then some .responder
  else if label = "invalid" then some .planner
  else none

/-- One LangGraph transition of the code planner: run the current node,
then follow its edge; a router label absent from the declared mapping
moves to the `crashed` sink (LangGraph raises in that case).
`self_correction` only logs; `responder` only builds the final text. -/
def cpStep (env : CPEnv) (s : CPState) : CPState :=
  match s.node with
  | .planner => { nodo_planner env s with node := .executor }
  | .executor =>
    let s := nodo_executor env s
    match pathMapExecutor (router_post_executor s) with
    | some n => { s with node := n }
    | none => { s with node := .crashed }
  | .self_correction => { s with node := .planner }
  | .reflector =>
    let s := nodo_reflector env s
    match pathMapReflector (router_post_reflector s) with
    | some n => { s with node := n }
    | none => { s with node := .crashed }
  | .responder => { s with node := .done }
  | .done => s
  | .crashed => s

/-- Iterate `cpStep` (`done` and `crashed` are absorbing). -/
def cpRun (env : CPEnv) : Nat → CPState → CPState
  | 0, s => s
  | fuel + 1, s => cpRun env fuel (cpStep env s)

/-- Initial `CodePlannerState` at the graph entry point with the default
correction cap. -/
def cpInit : CPState :=
  { node := .planner, planner_iterations := 0, correction_count := 0
    max_corrections := MAX_CORRECTIONS, generated_code := none
    execution_error := none, has_result := false, execution_success := false
    reflection_valid := true
    plannerRuns := 0, executorRuns := 0, llmPlannerCalls := 0 }

/-- Environment in which every execution of generated code raises. -/
def envAllRaises : CPEnv :=
  { plannerOracle := fun _ => .code false
    execOracle := fun _ => .raises
    reflectorOracle := fun _ => some true }

/-- Environment in which generated code always runs but keeps returning
`success: False` for the first four programs and raises on the fifth,
after which the iteration-limit fallback kicks in. -/
def envSixRuns : CPEnv :=
  { plannerOracle := fun _ => .code false
    execOracle := fun i => if i < 4 then .returns false else .raises
    reflectorOracle := fun _ => some false }

-- ============================================================
-- Auxiliary definitions for the proofs
-- ============================================================

/-- Invariant of the hierarchical agent graph that yields the manager
invocation bound: the cap is constant, the replan counter never exceeds
it, a pending replan ticket implies a non-empty report list and a
positive counter, and the number of manager calls is bounded through the
counter (tightly at the manager node, loosely elsewhere). -/
def AgentInv (m : Nat) (s : AgentState) : Prop :=
  s.max_replans = m ∧
  s.replan_count ≤ m ∧
  (s.needs_replan = true → s.specialist_reports ≠ [] ∧ 1 ≤ s.replan_count) ∧
  (match s.node with
   | .cargar_contexto => s.managerCalls = 0
   | .manager => s.managerCalls ≤ s.replan_count
   | _ => s.managerCalls ≤ 1 + s.replan_count)

/-- The session bound by `trackerWithSession`. -/
def sess0 : TokenSession :=
  { query_id := "q1", whatsapp := "+5491112345001", mensaje := "hola"
    start_time := 0, inferences := []
    total_prompt_tokens := 0, total_completion_tokens := 0, total_tokens := 0
    provider := none, modelName := none, end_time := none }

/-- An LLM response carrying OpenAI-style usage metadata. -/
def respOpenAI : LLMResponse :=
  { response_metadata := some
      { token_usage := some
          { prompt_tokens := 10, completion_tokens := 20, total_tokens := 30 }
        usage_metadata := none }
    content := some "hola!" }

/-- Notification state that already holds a d7 reminder row for `C1`. -/
def stWithReminder : NotifState :=
  { notificaciones :=
      [{ erp_cuota_id := "C1", whatsapp_to := "+5491112345001"
         tipo := "recordatorio_d7" }] }

-- ============================================================
-- Theorems
-- ============================================================

/-- C1: a payment-confirmation request on an installment whose state is
already `pagada` yields HTTP 400, creates no `Pago` row, leaves the
database (hence the installment's state and paid-at) unchanged, and
enqueues no outbound webhook delivery. -/
theorem confirmar_pago_already_paid (db : ErpDB) (req : ConfirmarPagoRequest)
    (uuidHex : List Char) (now : Nat) (c : Cuota)
    (hfind : get_cuota_by_id db req.cuota_id = some c)
    (hpaid : c.estado = "pagada") :
    (confirmar_pago db req uuidHex now).status = 400 ∧
    (confirmar_pago db req uuidHex now).pago = none ∧
    (confirmar_pago db req uuidHex now).cuota = some c ∧
    (confirmar_pago db req uuidHex now).db = db ∧
    (confirmar_pago db req uuidHex now).webhookEnqueued = false := by
  simp [confirmar_pago, crear_pago, hfind, hpaid]

/-- Witness for C1 at a concrete database, request, uuid and clock. -/
theorem confirmar_pago_already_paid_witness :
    (confirmar_pago erpDB0 reqPagada uuidHex0 5).status = 400 ∧
    (confirmar_pago erpDB0 reqPagada uuidHex0 5).pago = none ∧
    (confirmar_pago erpDB0 reqPagada uuidHex0 5).cuota = some cuotaPagada ∧
    (confirmar_pago erpDB0 reqPagada uuidHex0 5).db = erpDB0 ∧
    (confirmar_pago erpDB0 reqPagada uuidHex0 5).webhookEnqueued = false :=
  confirmar_pago_already_paid erpDB0 reqPagada uuidHex0 5 cuotaPagada (by decide) rfl

/-- C2 counterexample: confirming a payment on a concrete pending
installment succeeds (HTTP 200, installment paid), but the generated
payment id does not match `PAY-[A-F0-9]{8}`: the source prefixes ids
with `PAG-`, not `PAY-`. -/
theorem crear_pago_id_not_pay :
    (confirmar_pago erpDB0 reqPendiente uuidHex0 5).status = 200 ∧
    (confirmar_pago erpDB0 reqPendiente uuidHex0 5).pago.map
      (fun p => matchesPAY p.id) = some false ∧
    (confirmar_pago erpDB0 reqPendiente uuidHex0 5).pago.map
      (fun p => p.id) = some "PAG-01234567" := by
  refine ⟨rfl, ?_, rfl⟩
  decide

/-- C2 amended: on a pending installment the confirmation succeeds, the
generated payment id matches `PAG-[A-F0-9]{8}` (8 uppercase hex
characters, but with prefix `PAG-`, not `PAY-`), the installment's state
becomes `pagada` and its paid-at is set to the current time. -/
theorem crear_pago_pending_success (db : ErpDB) (req : ConfirmarPagoRequest)
    (uuidHex : List Char) (now : Nat) (c : Cuota)
    (hfind : get_cuota_by_id db req.cuota_id = some c)
    (hnot : ¬ c.estado = "pagada")
    (hlen : 8 ≤ uuidHex.length)
    (hhex : ∀ ch ∈ uuidHex, ch ∈ lowerHexChars) :
    (confirmar_pago db req uuidHex now).status = 200 ∧
    (∃ p, (confirmar_pago db req uuidHex now).pago = some p ∧
      matchesPAG p.id = true) ∧
    (confirmar_pago db req uuidHex now).cuota =
      some { c with estado := "pagada", fecha_pago := some now } ∧
    (confirmar_pago db req uuidHex now).webhookEnqueued = true := by
  have hup : ∀ ch ∈ lowerHexChars, isUpperHexChar ch.toUpper = true := by decide
  have hall : ((uuidHex.take 8).map Char.toUpper).all isUpperHexChar = true := by
    rw [List.all_eq_true]
    intro x hx
    rw [List.mem_map] at hx
    obtain ⟨a, ha, rfl⟩ := hx
    exact hup a (hhex a (List.take_subset 8 uuidHex ha))
  have hlen8 : ((uuidHex.take 8).map Char.toUpper).length = 8 := by
    rw [List.length_map, List.length_take]
    omega
  have hmk : ∀ l : List Char,
      matchesPAG ("PAG-" ++ String.mk l) =
        (decide (l.length = 8) && l.all isUpperHexChar) := fun _ => rfl
  have hmatch :
      matchesPAG ("PAG-" ++ String.mk ((uuidHex.take 8).map Char.toUpper)) = true := by
    rw [hmk, hlen8, hall]
    decide
  simp only [confirmar_pago, crear_pago, hfind, if_neg hnot]
  exact ⟨trivial, ⟨_, rfl, hmatch⟩, trivial, trivial⟩

/-- Witness for C2's amended statement at a concrete database, request,
uuid and clock. -/
theorem crear_pago_pending_success_witness :
    (confirmar_pago erpDB0 reqPendiente uuidHex0 5).status = 200 ∧
    (∃ p, (confirmar_pago erpDB0 reqPendiente uuidHex0 5).pago = some p ∧
      matchesPAG p.id = true) ∧
    (confirmar_pago erpDB0 reqPendiente uuidHex0 5).cuota =
      some { cuotaPendiente with estado := "pagada", fecha_pago := some 5 } ∧
    (confirmar_pago erpDB0 reqPendiente uuidHex0 5).webhookEnqueued = true :=
  crear_pago_pending_success erpDB0 reqPendiente uuidHex0 5 cuotaPendiente
    (by decide) (by decide) (by decide) (by decide)

/-- C5 counterexample: calling an unregistered tool does return
`success = false` and `data = null`, but the error string is
`Tool 'account_status' no encontrada`, not the exact string
`"not found"` the claim requires. -/
theorem call_tool_unknown_error_string :
    (call_tool [] "account_status" [] false).success = false ∧
    (call_tool [] "account_status" [] false).data = none ∧
    (call_tool [] "account_status" [] false).error =
      some ("Tool \x27account_status\x27 no encontrada") ∧
    (call_tool [] "account_status" [] false).error ≠ some "not found" := by
  refine ⟨rfl, rfl, rfl, ?_⟩
  decide

/-- C5 amended: for every registry, argument list and mock flag, calling
a name that is not registered returns exactly
`{success: false, error: "Tool '<name>' no encontrada", data: null}`;
the function is total, so the call never raises. -/
theorem call_tool_unknown (tools : List (String × ToolDefinition))
    (name : String) (arguments : List (String × JsonValue)) (use_mock : Bool)
    (h : tools.find? (fun p => p.1 = name) = none) :
    call_tool tools name arguments use_mock =
      { success := false
        error := some ("Tool \x27" ++ name ++ "\x27 no encontrada")
        data := none } := by
  simp [call_tool, h]

/-- Witness for C5's amended statement on the empty registry. -/
theorem call_tool_unknown_witness :
    call_tool [] "account_status" [] true =
      { success := false
        error := some ("Tool \x27account_status\x27 no encontrada")
        data := none } :=
  call_tool_unknown [] "account_status" [] true rfl

/-- C6 counterexample: with a matching verify-token but
`hub.mode ≠ "subscribe"`, the endpoint answers 403 instead of the
challenge, so "challenge iff token matches" fails in the right-to-left
direction. -/
theorem webhook_verification_mode_gate :
    webhook_verification "unsubscribe" "tok" "42" "tok" = .forbidden ∧
    webhook_verification "unsubscribe" "tok" "42" "tok" ≠ .challenge 42 := by
  refine ⟨rfl, ?_⟩
  decide

/-- C6 amended: the endpoint returns the integer challenge iff
`hub.mode = "subscribe"` AND the submitted verify-token equals the
configured one (assuming the challenge parses as an integer); whenever
that conjunction fails, the response is 403. -/
theorem webhook_verification_amended (hub_mode hub_verify_token hub_challenge
    verify_token_config : String) (n : Int) :
    (hub_mode = "subscribe" → hub_verify_token = verify_token_config →
      intOfString hub_challenge = some n →
      webhook_verification hub_mode hub_verify_token hub_challenge
        verify_token_config = .challenge n) ∧
    (¬ (hub_mode = "subscribe" ∧ hub_verify_token = verify_token_config) →
      webhook_verification hub_mode hub_verify_token hub_challenge
        verify_token_config = .forbidden) := by
  constructor
  · intro h1 h2 h3
    simp [webhook_verification, h1, h2, h3]
  · intro h
    rw [webhook_verification, if_neg]
    simp only [Bool.and_eq_true, decide_eq_true_eq]
    exact h

/-- Witness for C6's amended statement: a good handshake and a
wrong-token handshake. -/
theorem webhook_verification_amended_witness :
    webhook_verification "subscribe" "tok" "42" "tok" = .challenge 42 ∧
    webhook_verification "subscribe" "bad" "42" "tok" = .forbidden :=
  ⟨(webhook_verification_amended "subscribe" "tok" "42" "tok" 42).1 rfl rfl
      (by decide),
   (webhook_verification_amended "subscribe" "bad" "42" "tok" 42).2 (by decide)⟩

/-- C10: with no session bound in the task-local context,
`record_inference` returns the tracker state unchanged and
`finalize_session` returns `None` with the state unchanged; moreover,
after any `finalize_session`, a second `finalize_session` returns
`None` — so recording before `start_session`, or finalizing twice, is
harmless, and both functions are total (never raise). -/
theorem token_tracker_no_session (st : TrackerState)
    (node_name inference_type : String) (p c t : Nat)
    (metadata : Option InferenceMetadata) (now : Nat)
    (h : st.session = none) :
    record_inference st node_name inference_type p c t metadata now = st ∧
    finalize_session st now = (none, st) ∧
    (∀ (st2 : TrackerState) (now1 now2 : Nat),
      (finalize_session (finalize_session st2 now1).2 now2).1 = none) := by
  refine ⟨?_, ?_, ?_⟩
  · rw [record_inference]
    split
    · rfl
    · rw [h]
  · rw [finalize_session]
    split
    · rfl
    · rw [h]
  · intro st2 now1 now2
    rcases st2 with ⟨en, sess⟩
    cases en
    · simp [finalize_session]
    · cases sess <;> simp [finalize_session]

/-- Witness for C10 on an enabled tracker with no bound session. -/
theorem token_tracker_no_session_witness :
    record_inference { enabled := true, session := none } "manager" "planning"
        10 20 30 none 7 = { enabled := true, session := none } ∧
    finalize_session { enabled := true, session := none } 7 =
      (none, { enabled := true, session := none }) ∧
    (∀ (st2 : TrackerState) (now1 now2 : Nat),
      (finalize_session (finalize_session st2 now1).2 now2).1 = none) :=
  token_tracker_no_session { enabled := true, session := none }
    "manager" "planning" 10 20 30 none 7 rfl

/-- C7 counterexample: delivering the same payment-confirmed event twice
creates two `NotificacionEnviada` rows with the same
`(installment, payment_confirmation)` key — `enviar_confirmacion_pago`
registers without checking `_ya_enviada`, so the at-most-once property
fails for that kind. -/
theorem confirmacion_pago_duplicates :
    countNotif notifTwice "C-A001-03" "confirmacion_pago" = 2 ∧
    (enviar_confirmacion_pago notifEnv0 { notificaciones := [] }
      "C-A001-03" "A001").1 = true := by
  exact ⟨rfl, rfl⟩

/-- Helper: a registered row with the same key bumps the count by one. -/
theorem countNotif_registrar (st : NotifState) (cid w tipo : String) :
    countNotif (registrar_envio st cid w tipo) cid tipo =
      countNotif st cid tipo + 1 := by
  simp [countNotif, registrar_envio, List.filter_append]

/-- Helper: `_ya_enviada` is the boolean form of "the count is positive". -/
theorem ya_enviada_iff (st : NotifState) (cid tipo : String) :
    ya_enviada st cid tipo = true ↔ 0 < countNotif st cid tipo := by
  simp only [ya_enviada, countNotif, List.any_eq_true,
    List.length_pos_iff_exists_mem, List.mem_filter]

/-- C7 amended: the reminder kinds (`recordatorio_d7/d3/d1`) do check
for an existing `(installment, kind)` row before sending and
registering, so a reminder call is a no-op when a row with that key
already exists and never takes the key's row count past one; the
`payment_confirmation` kind performs no such check (see the
counterexample), so at-most-once holds only for the reminder kinds. -/
theorem recordatorio_idempotent (env : NotifEnv) (st : NotifState)
    (cuota_id : String) (dias_antes : Nat) :
    (0 < countNotif st cuota_id ("recordatorio_d" ++ toString dias_antes) →
      enviar_recordatorio_vencimiento env st cuota_id dias_antes = (false, st)) ∧
    countNotif (enviar_recordatorio_vencimiento env st cuota_id dias_antes).2
        cuota_id ("recordatorio_d" ++ toString dias_antes) ≤
      max 1 (countNotif st cuota_id ("recordatorio_d" ++ toString dias_antes)) := by
  rcases hc : env.get_cuota cuota_id with _ | cuota
  · constructor
    · intro _
      simp [enviar_recordatorio_vencimiento, hc]
    · simp [enviar_recordatorio_vencimiento, hc]
  · rcases ha : env.get_alumno cuota.alumno_id with _ | alumno
    · constructor
      · intro _
        simp [enviar_recordatorio_vencimiento, hc, ha]
      · simp [enviar_recordatorio_vencimiento, hc, ha]
    · rcases hw : buscarWhatsapp alumno.responsables with _ | w
      · constructor
        · intro _
          simp [enviar_recordatorio_vencimiento, hc, ha, hw]
        · simp [enviar_recordatorio_vencimiento, hc, ha, hw]
      · rcases hya : ya_enviada st cuota_id ("recordatorio_d" ++ toString dias_antes)
        · have hz : countNotif st cuota_id
              ("recordatorio_d" ++ toString dias_antes) = 0 := by
            have hiff := ya_enviada_iff st cuota_id
              ("recordatorio_d" ++ toString dias_antes)
            rw [hya] at hiff
            rcases Nat.eq_zero_or_pos (countNotif st cuota_id
              ("recordatorio_d" ++ toString dias_antes)) with h0 | hpos0
            · exact h0
            · exact absurd (hiff.mpr hpos0) (by decide)
          constructor
          · intro hpos
            omega
          · rcases hs : env.send_ok w
            · simp [enviar_recordatorio_vencimiento, hc, ha, hw, hya, hs]
            · simp [enviar_recordatorio_vencimiento, hc, ha, hw, hya, hs,
                countNotif_registrar, hz]
        · constructor
          · intro _
            simp [enviar_recordatorio_vencimiento, hc, ha, hw, hya]
          · simp [enviar_recordatorio_vencimiento, hc, ha, hw, hya]

/-- Witness for C7's amended statement: a state already holding the
`(C1, recordatorio_d7)` row. -/
theorem recordatorio_idempotent_witness :
    (0 < countNotif stWithReminder "C1" ("recordatorio_d" ++ toString 7) →
      enviar_recordatorio_vencimiento notifEnv0 stWithReminder "C1" 7 =
        (false, stWithReminder)) ∧
    countNotif (enviar_recordatorio_vencimiento notifEnv0 stWithReminder "C1" 7).2
        "C1" ("recordatorio_d" ++ toString 7) ≤
      max 1 (countNotif stWithReminder "C1" ("recordatorio_d" ++ toString 7)) :=
  recordatorio_idempotent notifEnv0 stWithReminder "C1" 7

/-- C8 counterexample: an invocation through the tracking wrapper with
an active session, a metadata-less response and an empty completion text
extracts zero tokens, and the wrapper then skips `record_inference`
entirely — no `InferenceRecord` is appended, contradicting "for every
LLM invocation … an InferenceRecord is appended". -/
theorem tracked_ainvoke_zero_tokens_skips :
    trackerWithSession.session = some sess0 ∧
    tracked_ainvoke String.length true trackerWithSession "manager" "planning"
        "openai" "gpt-4o-mini" emptyResponse 7 = trackerWithSession ∧
    (tracked_ainvoke String.length true trackerWithSession "manager" "planning"
        "openai" "gpt-4o-mini" emptyResponse 7).session.map
      (fun s => s.inferences) = some [] := by
  exact ⟨rfl, rfl, rfl⟩

/-- Helper: the provider/model back-fill leaves the inference list
untouched. -/
theorem sessionWithMeta_inferences (s : TokenSession)
    (m : Option InferenceMetadata) :
    (sessionWithMeta s m).inferences = s.inferences := by
  cases m with
  | none => rfl
  | some md =>
    simp only [sessionWithMeta]
    split <;> split <;> rfl

/-- C8 amended: with an active session, the wrapper appends an
`InferenceRecord` carrying the extracted counts iff the extracted total
is positive (a zero total appends nothing); extraction prefers provider
metadata, and with no metadata the tokenizer over the response text
supplies the completion count with zero attributed to the prompt side. -/
theorem tracked_ainvoke_amended (encode : String → Nat) (tiktoken_ok : Bool)
    (st : TrackerState) (node_name inference_type provider modelName : String)
    (response : LLMResponse) (now : Nat) (sess : TokenSession)
    (hs : st.session = some sess) (hen : st.enabled = true) :
    (0 < (extract_token_usage encode tiktoken_ok response).2.2 →
      (tracked_ainvoke encode tiktoken_ok st node_name inference_type
          provider modelName response now).session.map (fun s2 => s2.inferences) =
        some (sess.inferences ++
          [{ node_name := node_name, inference_type := inference_type
             prompt_tokens := (extract_token_usage encode tiktoken_ok response).1
             completion_tokens := (extract_token_usage encode tiktoken_ok response).2.1
             total_tokens := (extract_token_usage encode tiktoken_ok response).2.2
             timestamp := now
             metadata := some { provider := some provider
                                modelName := some modelName } }])) ∧
    ((extract_token_usage encode tiktoken_ok response).2.2 = 0 →
      tracked_ainvoke encode tiktoken_ok st node_name inference_type
        provider modelName response now = st) ∧
    (∀ text : String, response.response_metadata = none →
      response.content = some text → tiktoken_ok = true →
      extract_token_usage encode tiktoken_ok response =
        (0, encode text, encode text)) := by
  refine ⟨?_, ?_, ?_⟩
  · intro hpos
    rw [tracked_ainvoke, if_pos (by omega)]
    rw [record_inference]
    rw [hen]
    simp only [Bool.not_true, Bool.false_eq_true, if_false, hs, Option.map_some]
    rw [sessionWithMeta_inferences]
    rfl
  · intro hz
    rw [tracked_ainvoke, if_neg (by omega)]
  · intro text hmeta hcontent htik
    rw [extract_token_usage, hmeta, hcontent, htik]
    simp

/-- Witness for C8's amended statement: OpenAI-style metadata with 30
total tokens appends exactly one record to the empty session. -/
theorem tracked_ainvoke_amended_witness :
    (tracked_ainvoke String.length true trackerWithSession "manager" "planning"
        "openai" "gpt-4o-mini" respOpenAI 7).session.map (fun s2 => s2.inferences) =
      some (sess0.inferences ++
        [{ node_name := "manager", inference_type := "planning"
           prompt_tokens := (extract_token_usage String.length true respOpenAI).1
           completion_tokens := (extract_token_usage String.length true respOpenAI).2.1
           total_tokens := (extract_token_usage String.length true respOpenAI).2.2
           timestamp := 7
           metadata := some { provider := some "openai"
                              modelName := some "gpt-4o-mini" } }]) :=
  (tracked_ainvoke_amended String.length true trackerWithSession "manager"
    "planning" "openai" "gpt-4o-mini" respOpenAI 7 sess0 rfl rfl).1 (by decide)

/-- C9: the code-planner's resource claim is the stated intent of the
source (the executor edge mapping even declares
`max_errors → responder`, and the router comments say they force the
respond node), but the code slips twice.  First, a run whose generated
code raises on every execution reaches `correction_count = 3 =
max_corrections` after 3 planner and 3 executor runs, whereupon
`_router_post_executor` returns the label `"responder"`, which is *not*
a key of the declared mapping `{success, error, max_errors}` — the
graph has no edge to follow (LangGraph raises), so the run errors out
instead of routing to the respond node.  Second, a run mixing
reflection rejections with one execution error performs 6 planner-node
executions, exceeding `max_planner_iterations = 5` (only the LLM-call
count stays ≤ 5, because iteration 6 installs the fallback snippet
without calling the LLM). -/
theorem code_planner_bounds_bug :
    (cpRun envAllRaises 12 cpInit).node = .crashed ∧
    (cpRun envAllRaises 12 cpInit).plannerRuns = 3 ∧
    (cpRun envAllRaises 12 cpInit).executorRuns = 3 ∧
    (cpRun envAllRaises 12 cpInit).correction_count = 3 ∧
    pathMapExecutor "responder" = none ∧
    router_post_executor
      { cpInit with execution_error := some "exception", correction_count := 3 } =
        "responder" ∧
    (cpRun envSixRuns 30 cpInit).node = .done ∧
    (cpRun envSixRuns 30 cpInit).plannerRuns = 6 ∧
    (cpRun envSixRuns 30 cpInit).llmPlannerCalls = 5 ∧
    MAX_PLANNER_ITERATIONS = 5 ∧ MAX_CORRECTIONS = 3 := by
  refine ⟨?_, ?_, ?_, ?_, ?_, ?_, ?_, ?_, ?_, rfl, rfl⟩ <;> decide

/-- Helper: constants distribute over a mapped list sum. -/
theorem list_sum_map_mul (d : ℚ) (f : Nat → ℚ) (l : List Nat) :
    (l.map (fun i => d * f i)).sum = d * (l.map f).sum := by
  induction l with
  | nil => simp
  | cons a t ih => simp [ih, mul_add]

/-- Helper: on persistent failure the retry loop runs all its remaining
iterations, returns `false`, and sleeps `d * 2 ^ i` after every
iteration `i` except the last one. -/
theorem send_with_retry_go_persistent (outcome : Nat → AttemptOutcome)
    (N : Nat) (d : ℚ) (h : ∀ i, attemptSuccess (outcome i) = false) :
    ∀ (fuel attempt : Nat),
      send_with_retry_go outcome N d attempt fuel =
        { ok := false, attempts := fuel
          delays := ((List.range' attempt fuel).filter
              (fun i => decide (i < N - 1))).map (fun i => d * 2 ^ i) } := by
  intro fuel
  induction fuel with
  | zero =>
    intro attempt
    simp [send_with_retry_go, List.range']
  | succ n ih =>
    intro attempt
    by_cases hc : attempt < N - 1 <;>
      simp [send_with_retry_go, h attempt, ih, List.range', List.filter_cons, hc]

/-- Helper: among the first `k + 1` naturals, those below `k` are
exactly the first `k`. -/
theorem range_filter_lt_pred (k : Nat) :
    (List.range (k + 1)).filter (fun i => decide (i < k)) = List.range k := by
  rw [List.range_succ, List.filter_append]
  have h1 : (List.range k).filter (fun i => decide (i < k)) = List.range k := by
    rw [List.filter_eq_self]
    intro a ha
    simp only [List.mem_range] at ha
    simpa using ha
  simp [h1]

/-- C3: an outbound webhook delivery against a persistently failing
endpoint with `max_retries = N ≥ 1` and base delay `d` makes exactly
`N` HTTP attempts, sleeps `d * 2 ^ i` after attempt `i` for every
`i < N - 1` (so the slept time equals
`d * (2^0 + 2^1 + … + 2^(N-2))`, a lower bound on the elapsed time),
and returns `False` to its caller instead of raising. -/
theorem send_with_retry_persistent_failure (outcome : Nat → AttemptOutcome)
    (N : Nat) (d : ℚ) (hN : 1 ≤ N)
    (h : ∀ i, attemptSuccess (outcome i) = false) :
    (send_with_retry outcome N d).ok = false ∧
    (send_with_retry outcome N d).attempts = N ∧
    (send_with_retry outcome N d).delays =
      (List.range (N - 1)).map (fun i => d * 2 ^ i) ∧
    (send_with_retry outcome N d).delays.sum =
      d * ((List.range (N - 1)).map (fun i => (2 : ℚ) ^ i)).sum := by
  obtain ⟨k, rfl⟩ : ∃ k, N = k + 1 := ⟨N - 1, by omega⟩
  have hgo := send_with_retry_go_persistent outcome (k + 1) d h (k + 1) 0
  have hrange : List.range' 0 (k + 1) = List.range (k + 1) :=
    (List.range_eq_range' (k + 1)).symm
  rw [send_with_retry, hgo, hrange]
  have hk : k + 1 - 1 = k := by omega
  rw [hk, range_filter_lt_pred k]
  exact ⟨rfl, rfl, rfl, list_sum_map_mul d (fun i => 2 ^ i) (List.range k)⟩

/-- Witness for C3 with `max_retries = 3`, `base_delay = 1` and an
endpoint that always answers HTTP 500: 3 attempts, delays `[1, 2]`,
result `False`. -/
theorem send_with_retry_persistent_failure_witness :
    (send_with_retry (fun _ => AttemptOutcome.response 500) 3 1).ok = false ∧
    (send_with_retry (fun _ => AttemptOutcome.response 500) 3 1).attempts = 3 ∧
    (send_with_retry (fun _ => AttemptOutcome.response 500) 3 1).delays =
      (List.range (3 - 1)).map (fun i => (1 : ℚ) * 2 ^ i) ∧
    (send_with_retry (fun _ => AttemptOutcome.response 500) 3 1).delays.sum =
      1 * ((List.range (3 - 1)).map (fun i => (2 : ℚ) ^ i)).sum :=
  send_with_retry_persistent_failure (fun _ => .response 500) 3 1
    (by omega) (fun _ => rfl)

/-- Helper: `AgentInv` is preserved by every LangGraph transition of the
hierarchical agent. -/
theorem agentStep_inv (env : AgentEnv) (m : Nat) (s : AgentState)
    (h : AgentInv m s) : AgentInv m (agentStep env s) := by
  obtain ⟨node, err, plan, idx, reports, rc, mr, needs, mc, sc⟩ := s
  obtain ⟨h1, h2, h3, h4⟩ := h
  simp only at h1 h2 h3 h4
  cases node with
  | cargar_contexto =>
    simp only [agentStep, AgentInv] at h4 ⊢
    exact ⟨h1, h2, h3, by omega⟩
  | manager =>
    dsimp only at h4
    simp only [agentStep, nodo_manager]
    rcases env.managerOracle mc with e | plan2
    · dsimp only
      split <;>
        exact ⟨h1, h2, h3, by dsimp only [AgentInv]; omega⟩
    · dsimp only
      by_cases hrc : rc = 0
      · rw [if_pos hrc]
        split <;>
          exact ⟨h1, h2,
            fun hneeds => absurd ((h3 hneeds).2) (by omega),
            by dsimp only [AgentInv]; omega⟩
      · rw [if_neg hrc]
        split <;>
          exact ⟨h1, h2, h3, by dsimp only [AgentInv]; omega⟩
  | ejecutar_especialista =>
    dsimp only at h4
    simp only [agentStep, nodo_ejecutar_especialista]
    rcases plan with _ | plan2
    · exact ⟨h1, h2, h3, by dsimp only; omega⟩
    · dsimp only
      by_cases he : plan2.steps.isEmpty = true
      · simp only [he, if_true]
        exact ⟨h1, h2, h3, by dsimp only; omega⟩
      · simp only [he, Bool.false_eq_true, if_false]
        by_cases hge : idx ≥ plan2.steps.length
        · simp only [if_pos hge]
          exact ⟨h1, h2, h3, by dsimp only; omega⟩
        · simp only [if_neg hge]
          exact ⟨h1, h2,
            fun hneeds => ⟨by simp, (h3 hneeds).2⟩,
            by dsimp only; omega⟩
  | evaluar =>
    dsimp only at h4
    simp only [agentStep, nodo_evaluar]
    rcases hlast : reports.getLast? with _ | ultimo
    · by_cases hneeds : needs = true
      · exfalso
        have hne := (h3 hneeds).1
        cases reports with
        | nil => exact hne rfl
        | cons a t => simp at hlast
      · rw [Bool.not_eq_true] at hneeds
        simp only [hneeds, router_post_evaluar]
        rcases plan with _ | plan2
        · exact ⟨h1, h2, fun hn => absurd hn Bool.false_ne_true, h4⟩
        · by_cases hstep :
              (!plan2.steps.isEmpty && decide (idx < plan2.steps.length)) = true
          · simp only [hstep, if_true]
            exact ⟨h1, h2, fun hn => absurd hn Bool.false_ne_true, h4⟩
          · rw [Bool.not_eq_true] at hstep
            simp only [hstep, Bool.false_eq_true, if_false]
            exact ⟨h1, h2, fun hn => absurd hn Bool.false_ne_true, h4⟩
    · by_cases hreq : ultimo.requires_replan = true
      · simp only [hreq, if_true]
        by_cases hlt : rc < mr
        · simp only [if_pos hlt]
          have hne : reports ≠ [] := by
            cases reports with
            | nil => simp at hlast
            | cons a t => simp
          exact ⟨h1, by show rc + 1 ≤ m ; omega,
            fun _ => ⟨hne, by show 1 ≤ rc + 1 ; omega⟩,
            by show mc ≤ rc + 1 ; omega⟩
        · simp only [if_neg hlt, router_post_evaluar]
          rcases plan with _ | plan2
          · exact ⟨h1, h2, fun hn => absurd hn Bool.false_ne_true, h4⟩
          · by_cases hstep :
                (!plan2.steps.isEmpty && decide (idx < plan2.steps.length)) = true
            · simp only [hstep, if_true]
              exact ⟨h1, h2, fun hn => absurd hn Bool.false_ne_true, h4⟩
            · rw [Bool.not_eq_true] at hstep
              simp only [hstep, Bool.false_eq_true, if_false]
              exact ⟨h1, h2, fun hn => absurd hn Bool.false_ne_true, h4⟩
      · rw [Bool.not_eq_true] at hreq
        simp only [hreq, Bool.false_eq_true, if_false, router_post_evaluar]
        rcases plan with _ | plan2
        · exact ⟨h1, h2, fun hn => absurd hn Bool.false_ne_true, h4⟩
        · by_cases hstep :
              (!plan2.steps.isEmpty && decide (idx < plan2.steps.length)) = true
          · simp only [hstep, if_true]
            exact ⟨h1, h2, fun hn => absurd hn Bool.false_ne_true, h4⟩
          · rw [Bool.not_eq_true] at hstep
            simp only [hstep, Bool.false_eq_true, if_false]
            exact ⟨h1, h2, fun hn => absurd hn Bool.false_ne_true, h4⟩
  | sintetizar => exact ⟨h1, h2, h3, by simpa [agentStep, AgentInv] using h4⟩
  | fin => exact ⟨h1, h2, h3, by simpa [agentStep, AgentInv] using h4⟩

/-- Helper: `AgentInv` is preserved by whole runs. -/
theorem agentRun_inv (env : AgentEnv) (m : Nat) :
    ∀ (fuel : Nat) (s : AgentState), AgentInv m s → AgentInv m (agentRun env fuel s) := by
  intro fuel
  induction fuel with
  | zero => intro s h; exact h
  | succ n ih =>
    intro s h
    exact ih _ (agentStep_inv env m s h)

/-- Helper: the invariant bounds the manager-call counter. -/
theorem agentInv_managerCalls (m : Nat) (s : AgentState) (h : AgentInv m s) :
    s.managerCalls ≤ 1 + m := by
  obtain ⟨node, err, plan, idx, reports, rc, mr, needs, mc, sc⟩ := s
  obtain ⟨h1, h2, h3, h4⟩ := h
  cases node <;> dsimp only at h2 h4 ⊢ <;> omega

/-- C4: in any single inbound-message run of the hierarchical planner —
whatever the manager LLM and the specialists do, and however much fuel
the run is given — the manager node is invoked at most
`1 + max_replans` times (and the default `MAX_REPLANS` is 3): the
evaluate node only routes back to the manager while the replan counter
is strictly below the cap, incrementing it each time, so the replan
loop terminates after at most `max_replans` re-entries. -/
theorem agent_manager_call_bound (env : AgentEnv) (m fuel : Nat) :
    (agentRun env fuel (initialAgentState m)).managerCalls ≤ 1 + m ∧
    MAX_REPLANS = 3 := by
  refine ⟨?_, rfl⟩
  refine agentInv_managerCalls m _ (agentRun_inv env m fuel (initialAgentState m) ?_)
  exact ⟨rfl, Nat.zero_le m, fun hn => absurd hn Bool.false_ne_true, rfl⟩
